import Mathlib

/-!
Shallow embedding of `tortoise_typer/model_typer.py`, a Typer-based CLI
generator for Tortoise ORM models.  Python runtime values, field metadata,
the signature synthesizer and the generated command handlers are modelled as
executable Lean functions; the Tortoise persistence collaborator (`create`,
`get`, `save`, `delete`) is modelled as explicit state passing over an
in-memory store of rows, and `asyncio.run` as the identity bridge (each
handler runs exactly one coroutine to completion).
-/

namespace ModelTyper

/-- Python runtime values appearing as CLI option values, field defaults and
instance attributes.  `Value.none` is Python's `None` (the null sentinel). -/
inductive Value
  | int (n : Int)
  | str (s : String)
  | bool (b : Bool)
  | none
deriving DecidableEq, Repr

/-- Python `str(value)` as used by the f-string rendering in `_show`. -/
def pyStr : Value → String
  | .int n => toString n
  | .str s => s
  | .bool b => if b then "True" else "False"
  | .none => "None"

/-- Python `str.upper()`, applied characterwise (the model names involved are
ASCII identifiers). -/
def pyUpper (s : String) : String :=
  String.mk (s.data.map Char.toUpper)

/-- The Tortoise field classes that the `isinstance` chain of
`_get_field_type` distinguishes; `charF` and `jsonF` stand for the remaining
field classes, which all fall through to the `str` branch. -/
inductive FieldKind
  | intF | boolF | datetimeF | dateF | charF | jsonF
deriving DecidableEq, Repr

/-- A Tortoise field descriptor, restricted to the attributes that
`model_typer.py` reads.  `auto_now` and `auto_now_add` are `Option Bool`
because the Python code guards the reads with `hasattr` (the attributes exist
only on `DatetimeField`). -/
structure Field where
  kind : FieldKind
  pk : Bool
  null : Bool
  default : Option Value
  auto_now : Option Bool
  auto_now_add : Option Bool
deriving DecidableEq, Repr

/-- Python objects returned by `_get_field_type` and attached as parameter
annotations.  Because the module imports `from datetime import datetime`, the
expression `datetime.date` in the `DateField` branch denotes the instance
method `date` of the class `datetime.datetime`, not the type `datetime.date`;
`methodDatetimeDate` is that method object, while `typeDate` is the actual
date type (which the source never returns). -/
inductive PyVal
  | typeInt | typeBool | typeDatetime | typeDate | typeStr
  | methodDatetimeDate
deriving DecidableEq, Repr

/-- Whether a `PyVal` is a Python `type` object (the return annotation of
`_get_field_type` promises one). -/
def PyVal.isType : PyVal → Bool
  | .methodDatetimeDate => false
  | _ => true

/-- `ModelTyper._get_field_type` (model_typer.py:80-91): the `isinstance`
chain mapping a field to the object used as the CLI parameter annotation.
The `DateField` branch returns `datetime.date`, which under the module's
`from datetime import datetime` import is the method `datetime.datetime.date`,
not a type. -/
def _get_field_type (field : Field) : PyVal :=
  match field.kind with
  | .intF => .typeInt
  | .boolF => .typeBool
  | .datetimeF => .typeDatetime
  | .dateF => .methodDatetimeDate
  | _ => .typeStr

inductive ParamKind | positionalOnly | keywordOnly
deriving DecidableEq, Repr

/-- The `default=` marker handed to the parsing library:
`Argument(..., help=h)` (required positional with help text), `Option(...)`
(required flag) or `Option(None)` (optional flag, null sentinel default). -/
inductive ParamDefault
  | argumentRequired (help : String)
  | optionRequired
  | optionNull
deriving DecidableEq, Repr

/-- Whether a default marker encodes a required parameter (the Ellipsis
marker `...` inside `Argument`/`Option`). -/
def requiredMarker : ParamDefault → Bool
  | .argumentRequired _ => true
  | .optionRequired => true
  | .optionNull => false

/-- An `inspect.Parameter` as built by `_inject_model_signature`. -/
structure Param where
  name : String
  kind : ParamKind
  default : ParamDefault
  annot : PyVal
deriving DecidableEq, Repr

/-- A Tortoise model descriptor: its `__name__` and its
`_meta.fields_map` (an ordered mapping with unique keys). -/
structure Model where
  name : String
  fieldsMap : List (String × Field)
deriving DecidableEq, Repr

/-- The skip test of the field loop (model_typer.py:113-118):
`field.pk or hasattr(field, 'auto_now') and field.auto_now or
hasattr(field, 'auto_now_add') and field.auto_now_add`. -/
def skipField (f : Field) : Bool :=
  f.pk || f.auto_now.getD false || f.auto_now_add.getD false

/-- One iteration of the field loop (model_typer.py:120-133): requiredness
`not field.null and field.default is None and not force_optional`, and the
produced keyword-only parameter `Parameter(name=name, kind=KEYWORD_ONLY,
default=Option(... if is_required else None), annotation=param_type)`. -/
def mkFieldParam (name : String) (f : Field) (force_optional : Bool) : Param :=
  let is_required := !f.null && f.default.isNone && !force_optional
  { name := name
    kind := .keywordOnly
    default := if is_required then .optionRequired else .optionNull
    annot := _get_field_type f }

/-- The parameters produced by iterating `model._meta.fields_map` in
declaration order, skipping system-managed fields. -/
def fieldLoop (m : Model) (force_optional : Bool) : List Param :=
  m.fieldsMap.filterMap fun nf =>
    if skipField nf.2 then Option.none else some (mkFieldParam nf.1 nf.2 force_optional)

/-- The identifier parameter prepended when `add_id_argument` is set
(model_typer.py:102-110). -/
def idParameter : Param :=
  { name := "id"
    kind := .positionalOnly
    default := .argumentRequired "ID of the instance"
    annot := .typeInt }

/-- `ModelTyper._inject_model_signature` (model_typer.py:93-137), as the
parameter list it attaches to the handler's `__signature__`. -/
def _inject_model_signature (m : Model) (force_optional add_id_argument : Bool) :
    List Param :=
  (if add_id_argument then [idParameter] else []) ++ fieldLoop m force_optional

/-- The two registration call sites (model_typer.py:230-237): `create` uses
the defaults (`force_optional=False`, no id argument) while `edit` passes
`force_optional=True, add_id_argument=True`. -/
inductive Mode | create | edit
deriving DecidableEq, Repr

def forceOptionalOf : Mode → Bool
  | .create => false
  | .edit => true

def addIdOf : Mode → Bool
  | .create => false
  | .edit => true

/-- The synthesized signature of the `create` and `edit` commands. -/
def signatureFor (m : Model) (mode : Mode) : List Param :=
  _inject_model_signature m (forceOptionalOf mode) (addIdOf mode)

/-- A persisted row: the instance's attribute dictionary. -/
abbrev Instance := List (String × Value)

abbrev Store := List Instance

/-- Python `getattr(instance, field)` for a model field (rows fetched from
the persistence layer carry every model field). -/
def getattr (i : Instance) (k : String) : Value :=
  (List.lookup k i).getD Value.none

/-- Persistence-layer mutation calls issued by the handlers. -/
inductive PersistOp | createOp | saveOp | deleteOp
deriving DecidableEq, Repr

/-- The exception signals a handler can let escape to its caller. -/
inductive CmdErr | doesNotExist | keyError
deriving DecidableEq, Repr

/-- Modelled collaborator `Model.get(id=...)`: the row whose primary key
equals the given value, if any (primary keys are unique in a store). -/
def storeGet (store : Store) (idv : Value) : Option Instance :=
  store.find? fun i => List.lookup "id" i == some idv

/-- Modelled collaborator: the `UPDATE` performed by `instance.save()` on an
already-persisted instance. -/
def instanceSave (store : Store) (inst : Instance) : Store × List PersistOp :=
  (store.map fun i => if List.lookup "id" i == List.lookup "id" inst then inst else i,
   [PersistOp.saveOp])

/-- Fresh autoincrement primary key used by an `INSERT`. -/
def nextId (store : Store) : Int :=
  1 + store.foldl (fun a i =>
    max a (match List.lookup "id" i with
           | some (Value.int n) => n
           | _ => 0)) 0

/-- Modelled collaborator `Model.create(**kwargs)`: construct the instance
from the keyword fields and persist it (a single `INSERT` with a fresh
primary key). -/
def modelCreate (store : Store) (kwargs : List (String × Value)) :
    Store × Instance × List PersistOp :=
  let inst : Instance := ("id", Value.int (nextId store)) :: kwargs
  (store ++ [inst], inst, [PersistOp.createOp])

/-- Modelled collaborator `instance.delete()`: remove the row carrying the
instance's primary key. -/
def instanceDelete (store : Store) (inst : Instance) : Store × List PersistOp :=
  (store.filter fun i => !(List.lookup "id" i == List.lookup "id" inst),
   [PersistOp.deleteOp])

/-- Console panels emitted through the `info`, `warning` and `error` panel
printers. -/
inductive Output
  | infoMsg (s : String)
  | warningMsg (s : String)
  | errorMsg (s : String)
deriving DecidableEq, Repr

/-- The `_show` renderer (model_typer.py:156-160): every model field as a
line `* <field>: <value>`, joined by newlines, inside an info panel. -/
def _show (m : Model) (inst : Instance) : Output :=
  .infoMsg (String.intercalate "\n"
    (m.fieldsMap.map fun nf => "* " ++ nf.1 ++ ": " ++ pyStr (getattr inst nf.1)))

/-- The `acreate` coroutine body of `create` (model_typer.py:163-166):
`Model.create(**kwargs)` — which already persists — followed by a second
`instance.save()`. -/
def acreate (store : Store) (kwargs : List (String × Value)) :
    Store × Instance × List PersistOp :=
  let r := modelCreate store kwargs
  let s := instanceSave r.1 r.2.1
  (s.1, r.2.1, r.2.2 ++ s.2)

/-- The `create` handler (model_typer.py:162-169): run `acreate` to
completion, then display the instance via the show renderer. -/
def createCmd (m : Model) (store : Store) (kwargs : List (String × Value)) :
    Store × List PersistOp × List Output :=
  let r := acreate store kwargs
  (r.1, r.2.2, [_show m r.2.1])

/-- Python `dict.pop(key)`: the value and the dictionary without that key;
`Option.none` models the `KeyError` raised when the key is absent. -/
def popKey (k : String) (l : List (String × Value)) :
    Option (Value × List (String × Value)) :=
  match List.lookup k l with
  | Option.none => Option.none
  | some v => some (v, l.eraseP fun kv => kv.1 == k)

/-- Python `setattr(instance, key, value)`. -/
def setattr (i : Instance) (k : String) (v : Value) : Instance :=
  if (List.lookup k i).isSome then i.map fun kv => if kv.1 == k then (k, v) else kv
  else i ++ [(k, v)]

/-- One iteration of the assignment loop of `edit` (model_typer.py:177-179):
`if value is not None: setattr(instance, key, value)`. -/
def editStep (acc : Instance) (kv : String × Value) : Instance :=
  if kv.2 = Value.none then acc else setattr acc kv.1 kv.2

/-- The `aedit` coroutine body of `edit` (model_typer.py:174-181): pop `"id"`
from the copied kwargs, fetch by that identifier, assign every non-`None`
field, save.  `edit` wraps it in no `try/except`, so a `DoesNotExist` from
the fetch escapes as an error result. -/
def aedit (store : Store) (kwargs : List (String × Value)) :
    Except CmdErr (Store × Instance) :=
  match popKey "id" kwargs with
  | Option.none => .error .keyError
  | some (idv, args) =>
    match storeGet store idv with
    | Option.none => .error .doesNotExist
    | some inst =>
      let inst1 := args.foldl editStep inst
      let s := instanceSave store inst1
      .ok (s.1, inst1)

/-- The `edit` handler (model_typer.py:171-184): run `aedit` to completion
and display the result; any `DoesNotExist` propagates to the caller. -/
def editCmd (m : Model) (store : Store) (kwargs : List (String × Value)) :
    Except CmdErr (Store × Instance × List Output) :=
  (aedit store kwargs).map fun r => (r.1, r.2, [_show m r.2])

/-- The `show` handler (model_typer.py:197-207): fetch by id; `DoesNotExist`
is caught locally and turned into an error panel, so the handler always
returns normally. -/
def showCmd (m : Model) (store : Store) (id : Int) : List Output :=
  match storeGet store (Value.int id) with
  | Option.none =>
    [.errorMsg (pyUpper m.name ++ " with ID " ++ toString id ++ " not found.")]
  | some inst => [_show m inst]

/-- The `adelete` coroutine body of `delete` (model_typer.py:210-212): fetch
then `instance.delete()`; when the fetch raises, the delete is never
issued. -/
def adelete (store : Store) (id : Int) : Except CmdErr (Store × List PersistOp) :=
  match storeGet store (Value.int id) with
  | Option.none => .error .doesNotExist
  | some inst => .ok (instanceDelete store inst)

/-- The `delete` handler (model_typer.py:209-218): `DoesNotExist` is caught
locally and surfaced as an error panel; success emits the info panel. -/
def deleteCmd (m : Model) (store : Store) (id : Int) :
    Store × List PersistOp × List Output :=
  match adelete store id with
  | .ok r =>
    (r.1, r.2,
     [.infoMsg (pyUpper m.name ++ " with ID " ++ toString id ++ " deleted successfully.")])
  | .error _ =>
    (store, [],
     [.errorMsg (pyUpper m.name ++ " with ID " ++ toString id ++ " not found.")])

/-- The objects an integrator may pass to `ModelTyper(model)`: a Tortoise
model class, a class that does not subclass `Model`, a non-class object that
still carries a `__name__` (function, module), or an object without
`__name__`. -/
inductive PyObj
  | modelClass (m : Model)
  | nonModelClass (name : String)
  | funcLike (name : String)
  | plainObj
deriving DecidableEq, Repr

inductive ConstructErr | typeError | attributeError
deriving DecidableEq, Repr

/-- Reading `model.__name__`, which raises `AttributeError` when the object
has no such attribute. -/
def dunderName : PyObj → Except ConstructErr String
  | .modelClass m => .ok m.name
  | .nonModelClass n => .ok n
  | .funcLike n => .ok n
  | .plainObj => .error .attributeError

def hasDunderName : PyObj → Bool
  | .plainObj => false
  | _ => true

def isModelClass : PyObj → Bool
  | .modelClass _ => true
  | _ => false

/-- `ModelTyper._add_model_methods` (model_typer.py:139-237): it reads
`model.__name__` first (line 149, before any validity check), then evaluates
`issubclass(model, models.Model)` — which raises `TypeError` explicitly for a
non-`Model` class and implicitly for a non-class argument (`issubclass() arg
1 must be a class`) — and only then registers the five commands, returned
here as (name, help text) pairs. -/
def _add_model_methods (obj : PyObj) : Except ConstructErr (List (String × String)) := do
  let nm ← dunderName obj
  let name := pyUpper nm
  match obj with
  | .modelClass _ =>
    pure [("list", "List all " ++ name ++ " instances."),
          ("delete", "Delete a specific " ++ name ++ " instance."),
          ("show", "Show a specific " ++ name ++ " instance."),
          ("create", "Create a new " ++ name ++ " instance."),
          ("edit", "Edit an existing " ++ name ++ " instance.")]
  | _ => throw ConstructErr.typeError

/-- `ModelTyper.__init__` (model_typer.py:76-78): the Typer constructor runs
first, then `_add_model_methods(model)`; the registered command table is the
only state this component builds. -/
def modelTyperInit (obj : PyObj) : Except ConstructErr (List (String × String)) :=
  _add_model_methods obj

/-- The `Task` model of the spec scenarios: `id` primary key, `title`
required text, `done` boolean with default, two auto-maintained timestamps,
and an optional date field. -/
def idField : Field := ⟨.intF, true, false, Option.none, Option.none, Option.none⟩

def titleField : Field := ⟨.charF, false, false, Option.none, Option.none, Option.none⟩

def doneField : Field :=
  ⟨.boolF, false, false, some (Value.bool false), Option.none, Option.none⟩

def createdField : Field :=
  ⟨.datetimeF, false, false, Option.none, some false, some true⟩

def updatedField : Field :=
  ⟨.datetimeF, false, false, Option.none, some true, some false⟩

def dueField : Field := ⟨.dateF, false, true, Option.none, Option.none, Option.none⟩

def taskModel : Model :=
  ⟨"Task", [("id", idField), ("title", titleField), ("done", doneField),
            ("created", createdField), ("updated", updatedField), ("due", dueField)]⟩

def taskInst1 : Instance :=
  [("id", Value.int 1), ("title", Value.str "buy milk"), ("done", Value.bool false)]

end ModelTyper

namespace ModelTyper

/-- Keys of an association list with nodup keys determine the entries. -/
theorem keys_nodup_inj {α β : Type} {a b : α × β} :
    ∀ {l : List (α × β)}, (l.map Prod.fst).Nodup → a ∈ l → b ∈ l → a.1 = b.1 → a = b := by
  intro l
  induction l with
  | nil => intro _ ha _ _; cases ha
  | cons c t ih =>
    intro hnd ha hb h
    rw [List.map_cons, List.nodup_cons] at hnd
    rcases List.mem_cons.mp ha with rfl | ha'
    · rcases List.mem_cons.mp hb with rfl | hb'
      · rfl
      · exfalso; apply hnd.1; rw [h]; exact List.mem_map_of_mem Prod.fst hb'
    · rcases List.mem_cons.mp hb with rfl | hb'
      · exfalso; apply hnd.1; rw [← h]; exact List.mem_map_of_mem Prod.fst ha'
      · exact ih hnd.2 ha' hb' h

/-- Claim C1 (code_bug): the claim states that an `edit` invocation whose
identifier matches no stored instance catches the persistence layer's
not-found signal locally, emits an error message and completes normally.
The code's `edit` handler has no `try/except` (unlike `show` and `delete`),
so `DoesNotExist` raised by `model.get` propagates to the caller and no
error panel is emitted: on an empty store, `edit 42` yields the escaped
exception, not a normal completion. -/
theorem edit_not_found_propagates :
    editCmd taskModel [] [("id", Value.int 42)] = Except.error CmdErr.doesNotExist := by
  rfl

/-- Claim C2, counterexample: `create` does not perform exactly one
persistence mutation — the trace of a concrete invocation has two entries
(`Model.create` and the subsequent `instance.save()`), not one. -/
theorem create_single_mutation_cex :
    ¬ (createCmd taskModel [] [("title", Value.str "buy milk"),
        ("done", Value.bool false)]).2.1.length = 1 := by
  decide

/-- Claim C2 (amended): every `create` invocation performs exactly two
persistence calls — one construct-and-persist (`Model.create`) followed by
one redundant `save` of the same instance — each attempted once, in that
order, with no retries. -/
theorem create_two_persistence_calls (m : Model) (store : Store)
    (kwargs : List (String × Value)) :
    (createCmd m store kwargs).2.1 = [PersistOp.createOp, PersistOp.saveOp] := by
  rfl

/-- Claim C3 (code_bug): the claim states that the field-type mapper sends
date-kind fields to a date type (one of the five scalar types).  Because the
module imports `from datetime import datetime`, its `DateField` branch
`return datetime.date` evaluates to the instance method
`datetime.datetime.date`, which is not a type at all — contradicting the
function's own `-> type` return annotation. -/
theorem date_field_maps_to_method_not_type :
    _get_field_type dueField = PyVal.methodDatetimeDate ∧
    PyVal.methodDatetimeDate ≠ PyVal.typeDate ∧
    PyVal.isType PyVal.methodDatetimeDate = false := by
  decide

/-- Claim C4, counterexample: supplying an object without a `__name__`
attribute (e.g. an int instance) makes construction fail with an
`AttributeError` from `model.__name__` — evaluated before the `issubclass`
check — not with a `TypeError` as the claim states for every non-model
object. -/
theorem nonmodel_object_attributeerror_cex :
    modelTyperInit PyObj.plainObj = Except.error ConstructErr.attributeError ∧
    ConstructErr.attributeError ≠ ConstructErr.typeError :=
  ⟨rfl, by decide⟩

/-- Claim C4 (amended): construction of the app shell with any non-model
object fails fast before any command is registered; the failure is a type
error whenever the object carries a `__name__` (a non-model class, or a
non-class such as a function), while an object without `__name__` fails with
an attribute error from the name lookup preceding the subclass check. -/
theorem nonmodel_construction_fails (obj : PyObj) (h : isModelClass obj = false) :
    (∃ e, modelTyperInit obj = Except.error e) ∧
    (hasDunderName obj = true → modelTyperInit obj = Except.error ConstructErr.typeError) := by
  cases obj with
  | modelClass m => simp [isModelClass] at h
  | nonModelClass n => exact ⟨⟨ConstructErr.typeError, rfl⟩, fun _ => rfl⟩
  | funcLike n => exact ⟨⟨ConstructErr.typeError, rfl⟩, fun _ => rfl⟩
  | plainObj =>
    exact ⟨⟨ConstructErr.attributeError, rfl⟩, fun hc => by simp [hasDunderName] at hc⟩

/-- Claim C4, witness: a concrete non-model class is rejected with a type
error and registers nothing. -/
theorem nonmodel_construction_fails_witness :
    modelTyperInit (PyObj.nonModelClass "Foo") = Except.error ConstructErr.typeError :=
  (nonmodel_construction_fails (PyObj.nonModelClass "Foo") (by decide)).2 (by decide)

end ModelTyper

namespace ModelTyper

/-- Claim C5: for every model and both modes, the signature synthesizer never
produces a generated parameter for a primary-key field or for a timestamp
field flagged auto-now or auto-now-add — such fields are always skipped by
the field loop.  (The identifier parameter of edit mode is the separately
prepended id argument, not a parameter generated for any field.)  Stated both
as name exclusion — no loop parameter bears a skipped field's name — and as
provenance: every synthesized parameter is the identifier parameter or arises
from a retained (non-skipped) field. -/
theorem synthesizer_skips_system_fields (m : Model) (force addId : Bool)
    (hnd : (m.fieldsMap.map Prod.fst).Nodup) :
    (∀ nf ∈ m.fieldsMap, skipField nf.2 = true →
       ∀ p ∈ fieldLoop m force, p.name ≠ nf.1) ∧
    (∀ p ∈ _inject_model_signature m force addId,
       p = idParameter ∨
       ∃ nf, nf ∈ m.fieldsMap ∧ skipField nf.2 = false ∧
         p = mkFieldParam nf.1 nf.2 force) := by
  constructor
  · intro nf hnf hskip p hp hname
    rcases List.mem_filterMap.mp hp with ⟨nf', hnf', heq⟩
    by_cases hs : skipField nf'.2 = true
    · simp [hs] at heq
    · simp [hs] at heq
      subst heq
      have hn : nf'.1 = nf.1 := hname
      have := keys_nodup_inj hnd hnf' hnf hn
      subst this
      exact hs hskip
  · intro p hp
    simp only [_inject_model_signature] at hp
    rcases List.mem_append.mp hp with h1 | h2
    · cases addId with
      | true => left; simpa using h1
      | false => simp at h1
    · right
      rcases List.mem_filterMap.mp h2 with ⟨nf, hnf, heq⟩
      by_cases hs : skipField nf.2 = true
      · simp [hs] at heq
      · simp [hs] at heq
        rw [Bool.not_eq_true] at hs
        exact ⟨nf, hnf, hs, heq.symm⟩

/-- Claim C5, witness: on the Task model (pk `id`, auto timestamps) in edit
mode, the parameter generated for the retained field `title` does not bear
the primary-key field's name. -/
theorem synthesizer_skips_system_fields_witness :
    (mkFieldParam "title" titleField true).name ≠ "id" :=
  (synthesizer_skips_system_fields taskModel true true (by decide)).1
    ("id", idField) (by decide) (by decide)
    (mkFieldParam "title" titleField true) (by decide)

/-- Claim C6: for every model, the edit-mode signature starts with the
identifier parameter — named "id", required, integer-annotated, documented as
"ID of the instance" — and every following (non-identifier) generated
parameter is optional regardless of the field's own nullability. -/
theorem edit_signature_id_first_all_optional (m : Model) :
    (signatureFor m Mode.edit).head? = some idParameter ∧
    idParameter.name = "id" ∧
    requiredMarker idParameter.default = true ∧
    idParameter.annot = PyVal.typeInt ∧
    idParameter.default = ParamDefault.argumentRequired "ID of the instance" ∧
    ∀ p ∈ (signatureFor m Mode.edit).tail, requiredMarker p.default = false := by
  refine ⟨rfl, rfl, rfl, rfl, rfl, ?_⟩
  intro p hp
  have hp' : p ∈ fieldLoop m true := hp
  rcases List.mem_filterMap.mp hp' with ⟨nf, hnf, heq⟩
  by_cases hs : skipField nf.2 = true
  · simp [hs] at heq
  · simp [hs] at heq
    rw [← heq]
    simp [mkFieldParam, requiredMarker]

/-- Claim C6, witness: on the Task model the edit signature's head is the
identifier parameter and the generated `title` parameter is optional. -/
theorem edit_signature_id_first_all_optional_witness :
    (signatureFor taskModel Mode.edit).head? = some idParameter ∧
    requiredMarker (mkFieldParam "title" titleField true).default = false :=
  ⟨(edit_signature_id_first_all_optional taskModel).1,
   (edit_signature_id_first_all_optional taskModel).2.2.2.2.2
     (mkFieldParam "title" titleField true) (by decide)⟩

/-- Claim C7: for every retained (non-skipped) field, the synthesized
parameter is required iff the field is not nullable, has no default, and the
mode is create; any other combination yields an optional parameter whose
default marker is the null sentinel `Option(None)`. -/
theorem field_param_required_iff (m : Model) (mode : Mode) :
    ∀ nf ∈ m.fieldsMap, skipField nf.2 = false →
      ∃ p ∈ signatureFor m mode, p.name = nf.1 ∧
        (requiredMarker p.default = true ↔
          (nf.2.null = false ∧ nf.2.default = Option.none ∧ mode = Mode.create)) ∧
        (requiredMarker p.default = false → p.default = ParamDefault.optionNull) := by
  intro nf hnf hskip
  have hmem : mkFieldParam nf.1 nf.2 (forceOptionalOf mode) ∈
      fieldLoop m (forceOptionalOf mode) :=
    List.mem_filterMap.mpr ⟨nf, hnf, by simp [hskip]⟩
  refine ⟨mkFieldParam nf.1 nf.2 (forceOptionalOf mode), ?_, rfl, ?_, ?_⟩
  · cases mode with
    | create => simpa [signatureFor, _inject_model_signature, addIdOf] using hmem
    | edit =>
      simp only [signatureFor, _inject_model_signature, addIdOf]
      exact List.mem_append.mpr (Or.inr hmem)
  · cases mode <;> cases hnull : nf.2.null <;> rcases hdef : nf.2.default with _ | v <;>
      simp [mkFieldParam, requiredMarker, forceOptionalOf, hnull, hdef]
  · intro h
    by_cases hc : (!nf.2.null && nf.2.default.isNone && !forceOptionalOf mode) = true
    · simp [mkFieldParam, hc, requiredMarker] at h
    · simp [mkFieldParam, hc]

/-- Claim C7, witness: in create mode the Task field `title` (not nullable,
no default) yields a required parameter with the required marker. -/
theorem field_param_required_iff_witness :
    ∃ p ∈ signatureFor taskModel Mode.create, p.name = "title" ∧
      (requiredMarker p.default = true ↔
        (titleField.null = false ∧ titleField.default = Option.none ∧
          Mode.create = Mode.create)) ∧
      (requiredMarker p.default = false → p.default = ParamDefault.optionNull) :=
  field_param_required_iff taskModel Mode.create ("title", titleField)
    (by decide) (by decide)

end ModelTyper

namespace ModelTyper

/-- Claim C8: for every `show` invocation, a missing identifier yields
exactly the error panel `<MODEL> with ID <id> not found.` (model name
uppercased) with no exception escaping (the handler's total return type),
while an existing instance is rendered with every model field as a line
`* <field>: <value>`, joined by newlines, inside an info panel. -/
theorem show_not_found_and_render (m : Model) (store : Store) (id : Int) :
    (storeGet store (Value.int id) = Option.none →
      showCmd m store id =
        [Output.errorMsg (pyUpper m.name ++ " with ID " ++ toString id ++ " not found.")]) ∧
    (∀ inst, storeGet store (Value.int id) = some inst →
      showCmd m store id =
        [Output.infoMsg (String.intercalate "\n"
          (m.fieldsMap.map fun nf => "* " ++ nf.1 ++ ": " ++ pyStr (getattr inst nf.1)))]) := by
  constructor
  · intro h
    simp [showCmd, h]
  · intro inst h
    simp [showCmd, h, _show]

/-- Claim C8, witness: `show 42` on the empty store prints exactly
`TASK with ID 42 not found.`, and `show 1` on a store holding the Task
instance renders the field lines in an info panel. -/
theorem show_not_found_and_render_witness :
    showCmd taskModel [] 42 = [Output.errorMsg "TASK with ID 42 not found."] ∧
    showCmd taskModel [taskInst1] 1 =
      [Output.infoMsg
        "* id: 1\n* title: buy milk\n* done: False\n* created: None\n* updated: None\n* due: None"] := by
  constructor
  · rw [(show_not_found_and_render taskModel [] 42).1 (by rfl)]
    decide
  · rw [(show_not_found_and_render taskModel [taskInst1] 1).2 taskInst1 (by decide)]
    decide

/-- Claim C9: for every `delete` invocation, a missing identifier yields the
error panel with the store unchanged and no delete issued against it (empty
mutation trace), while an existing instance is removed — it is no longer
fetchable, every other row survives — with the success info panel
`<MODEL> with ID <id> deleted successfully.` emitted. -/
theorem delete_not_found_and_success (m : Model) (store : Store) (id : Int) :
    (storeGet store (Value.int id) = Option.none →
      deleteCmd m store id =
        (store, [],
         [Output.errorMsg (pyUpper m.name ++ " with ID " ++ toString id ++ " not found.")])) ∧
    (∀ inst, storeGet store (Value.int id) = some inst →
      (deleteCmd m store id).1 =
          store.filter (fun i => !(List.lookup "id" i == some (Value.int id))) ∧
      storeGet (deleteCmd m store id).1 (Value.int id) = Option.none ∧
      (∀ j ∈ store, ¬ List.lookup "id" j = some (Value.int id) →
         j ∈ (deleteCmd m store id).1) ∧
      (deleteCmd m store id).2.2 =
        [Output.infoMsg (pyUpper m.name ++ " with ID " ++ toString id ++
          " deleted successfully.")]) := by
  constructor
  · intro h
    simp [deleteCmd, adelete, h]
  · intro inst h
    have hpk : List.lookup "id" inst = some (Value.int id) := by
      have := List.find?_some h
      simpa using this
    have hres : (deleteCmd m store id).1 =
        store.filter (fun i => !(List.lookup "id" i == some (Value.int id))) := by
      simp [deleteCmd, adelete, h, instanceDelete, hpk]
    refine ⟨hres, ?_, ?_, ?_⟩
    · rw [hres]
      rw [storeGet, List.find?_eq_none]
      intro x hx
      have := (List.mem_filter.mp hx).2
      simpa using this
    · intro j hj hne
      rw [hres]
      exact List.mem_filter.mpr ⟨hj, by simpa using hne⟩
    · simp [deleteCmd, adelete, h]

/-- Claim C9, witness: `delete 7` on the empty store yields the error panel
with no mutation, and `delete 1` on a store holding the Task instance emits
the success info panel. -/
theorem delete_not_found_and_success_witness :
    deleteCmd taskModel [] 7 = ([], [], [Output.errorMsg "TASK with ID 7 not found."]) ∧
    (deleteCmd taskModel [taskInst1] 1).2.2 =
      [Output.infoMsg "TASK with ID 1 deleted successfully."] := by
  constructor
  · rw [(delete_not_found_and_success taskModel [] 7).1 (by rfl)]
    decide
  · rw [((delete_not_found_and_success taskModel [taskInst1] 1).2 taskInst1
      (by decide)).2.2.2]
    decide

end ModelTyper

namespace ModelTyper

/-- Lookup reduction on a matching head. -/
theorem lookup_cons_pos {k k1 : String} {v1 : Value} {t : List (String × Value)}
    (h : (k == k1) = true) :
    List.lookup k ((k1, v1) :: t) = some v1 := by
  simp only [List.lookup, h]

/-- Lookup reduction on a non-matching head. -/
theorem lookup_cons_neg {k k1 : String} {v1 : Value} {t : List (String × Value)}
    (h : (k == k1) = false) :
    List.lookup k ((k1, v1) :: t) = List.lookup k t := by
  simp only [List.lookup, h]

/-- Lookup of an absent key is `none`. -/
theorem lookup_eq_none_of_not_mem_keys :
    ∀ {l : List (String × Value)} {k : String},
      k ∉ l.map Prod.fst → List.lookup k l = Option.none := by
  intro l
  induction l with
  | nil => intro k _; rfl
  | cons a t ih =>
    intro k h
    rcases a with ⟨k1, v1⟩
    simp only [List.map_cons, List.mem_cons] at h
    push_neg at h
    rw [lookup_cons_neg (beq_eq_false_iff_ne.mpr h.1)]
    exact ih h.2

/-- Removing the entry for a key from an association list with unique keys
leaves no binding for that key. -/
theorem lookup_eraseP_self :
    ∀ {l : List (String × Value)} {k : String},
      (l.map Prod.fst).Nodup →
      List.lookup k (l.eraseP fun kv => kv.1 == k) = Option.none := by
  intro l
  induction l with
  | nil => intro k _; rfl
  | cons a t ih =>
    intro k hnd
    rcases a with ⟨k1, v1⟩
    rw [List.map_cons, List.nodup_cons] at hnd
    by_cases hk : k1 = k
    · subst hk
      rw [List.eraseP_cons_of_pos (by simp)]
      exact lookup_eq_none_of_not_mem_keys hnd.1
    · rw [List.eraseP_cons_of_neg (by simp [hk])]
      rw [lookup_cons_neg (beq_eq_false_iff_ne.mpr fun he => hk he.symm)]
      exact ih hnd.2

/-- Updating the binding of one key by mapping over the list leaves the
lookup of any other key unchanged. -/
theorem lookup_map_update_ne {k k1 : String} (h : k1 ≠ k) (v : Value) :
    ∀ (i : Instance),
      List.lookup k1 (i.map fun kv => if kv.1 == k then (k, v) else kv) =
        List.lookup k1 i := by
  intro i
  induction i with
  | nil => rfl
  | cons a t ih =>
    rcases a with ⟨k2, v2⟩
    rw [List.map_cons]
    by_cases h2 : k2 = k
    · subst h2
      have : ((k2, v2).1 == k2) = true := by simp
      rw [if_pos this]
      rw [lookup_cons_neg (beq_eq_false_iff_ne.mpr h),
          lookup_cons_neg (beq_eq_false_iff_ne.mpr h)]
      exact ih
    · have : ¬ ((k2, v2).1 == k) = true := by simp [h2]
      rw [if_neg this]
      by_cases h3 : k1 = k2
      · subst h3
        rw [lookup_cons_pos (by simp), lookup_cons_pos (by simp)]
      · rw [lookup_cons_neg (beq_eq_false_iff_ne.mpr h3),
            lookup_cons_neg (beq_eq_false_iff_ne.mpr h3)]
        exact ih

/-- Appending a binding for a different key leaves a lookup unchanged. -/
theorem lookup_append_single_ne {k k1 : String} (h : k1 ≠ k) (v : Value) :
    ∀ (i : Instance), List.lookup k1 (i ++ [(k, v)]) = List.lookup k1 i := by
  intro i
  induction i with
  | nil =>
    rw [List.nil_append, lookup_cons_neg (beq_eq_false_iff_ne.mpr h)]
  | cons a t ih =>
    rcases a with ⟨k2, v2⟩
    rw [List.cons_append]
    by_cases h2 : k1 = k2
    · subst h2
      rw [lookup_cons_pos (by simp), lookup_cons_pos (by simp)]
    · rw [lookup_cons_neg (beq_eq_false_iff_ne.mpr h2),
          lookup_cons_neg (beq_eq_false_iff_ne.mpr h2)]
      exact ih

/-- `setattr` on one attribute leaves every other attribute's lookup
unchanged. -/
theorem lookup_setattr_ne {i : Instance} {k k1 : String} (h : k1 ≠ k) (v : Value) :
    List.lookup k1 (setattr i k v) = List.lookup k1 i := by
  rw [setattr]
  by_cases hs : (List.lookup k i).isSome = true
  · rw [if_pos hs]
    exact lookup_map_update_ne h v i
  · rw [if_neg hs]
    exact lookup_append_single_ne h v i

/-- The assignment loop of `edit` never touches an attribute whose key is
absent from the remaining keyword fields. -/
theorem fold_preserves_lookup :
    ∀ (args : List (String × Value)) (inst : Instance),
      List.lookup "id" args = Option.none →
      List.lookup "id" (args.foldl editStep inst) = List.lookup "id" inst := by
  intro args
  induction args with
  | nil => intro inst _; rfl
  | cons a t ih =>
    intro inst h
    rcases a with ⟨k, v⟩
    have hk : ("id" == k) = false := by
      by_cases hkk : ("id" == k) = true
      · rw [lookup_cons_pos hkk] at h
        cases h
      · rw [Bool.not_eq_true] at hkk
        exact hkk
    have ht : List.lookup "id" t = Option.none := by
      rw [lookup_cons_neg hk] at h
      exact h
    rw [List.foldl_cons, ih (editStep inst (k, v)) ht]
    rw [editStep]
    by_cases hv : (k, v).2 = Value.none
    · rw [if_pos hv]
    · rw [if_neg hv]
      exact lookup_setattr_ne (beq_eq_false_iff_ne.mp hk) v

/-- Claim C10: for every `edit` invocation that completes on an existing
instance, the identifier attribute itself is never overwritten — the `"id"`
entry is popped from the copied keyword fields before the assignment loop,
so the loop mutates only non-identifier attributes and the updated instance
keeps the fetched instance's identifier. -/
theorem edit_preserves_identifier (store : Store) (kwargs : List (String × Value))
    (store1 : Store) (inst1 : Instance)
    (hnd : (kwargs.map Prod.fst).Nodup)
    (h : aedit store kwargs = Except.ok (store1, inst1)) :
    ∃ idv args inst,
      popKey "id" kwargs = some (idv, args) ∧
      List.lookup "id" args = Option.none ∧
      storeGet store idv = some inst ∧
      List.lookup "id" inst1 = List.lookup "id" inst := by
  rcases hpop : popKey "id" kwargs with _ | ⟨idv, args⟩
  · simp [aedit, hpop] at h
  · rcases hget : storeGet store idv with _ | inst
    · simp [aedit, hpop, hget] at h
    · have hargs : args = kwargs.eraseP fun kv => kv.1 == "id" := by
        rw [popKey] at hpop
        rcases hlk : List.lookup "id" kwargs with _ | v
        · rw [hlk] at hpop
          cases hpop
        · rw [hlk] at hpop
          simp only [Option.some.injEq, Prod.mk.injEq] at hpop
          exact hpop.2.symm
      have hlknone : List.lookup "id" args = Option.none := by
        rw [hargs]
        exact lookup_eraseP_self hnd
      have hinst : inst1 = args.foldl editStep inst := by
        simp only [aedit, hpop, hget, Except.ok.injEq, Prod.mk.injEq] at h
        exact h.2.symm
      refine ⟨idv, args, inst, rfl, hlknone, hget, ?_⟩
      rw [hinst]
      exact fold_preserves_lookup args inst hlknone

/-- Claim C10, witness: editing the stored Task instance with
`edit 1 --done true` (title passed as the null sentinel) leaves the
identifier attribute of the saved instance equal to the fetched one's. -/
theorem edit_preserves_identifier_witness :
    ∃ idv args inst,
      popKey "id" [("id", Value.int 1), ("title", Value.none),
        ("done", Value.bool true)] = some (idv, args) ∧
      List.lookup "id" args = Option.none ∧
      storeGet [taskInst1] idv = some inst ∧
      List.lookup "id" ([("id", Value.int 1), ("title", Value.str "buy milk"),
        ("done", Value.bool true)] : Instance) = List.lookup "id" inst :=
  edit_preserves_identifier [taskInst1]
    [("id", Value.int 1), ("title", Value.none), ("done", Value.bool true)]
    [[("id", Value.int 1), ("title", Value.str "buy milk"), ("done", Value.bool true)]]
    [("id", Value.int 1), ("title", Value.str "buy milk"), ("done", Value.bool true)]
    (by decide) (by rfl)

end ModelTyper
